import Mathlib

/-!
Verification of the profile-scoped client pooling and command-dispatch layer
of the sentry-cli repository, shallowly embedded in Lean.

The embedding covers:
- the configuration loader (source: src/utils/config-loader.ts),
- the REPL command dispatch switch (source: src/cli/wrapper.ts, runCommand),
- the client registry and the uniform error-folding dispatcher, which are
  implemented in files absent from the sources at hand (sentry-utils.ts,
  sentry-client.ts, commands/runner.ts) and are therefore modelled from the
  specification where indicated.

JavaScript machine details are made explicit: field values are a small
JavaScript-value type and presence checks use JavaScript truthiness, exactly
as the source does.
-/

namespace SentryCli

/-- A JavaScript value as far as the configuration loader and the dispatcher
inspect one: the source only ever tests truthiness of these fields and passes
them through otherwise. -/
inductive JSValue where
  | undefined
  | null
  | bool (b : Bool)
  | num (n : Int)
  | str (s : String)
deriving DecidableEq

/-- JavaScript truthiness, as used by every bare `!x` and `x || y` test in the
source: undefined, null, false, 0 and the empty string are falsy. -/
def jsTruthy : JSValue → Bool
  | .undefined => false
  | .null => false
  | .bool b => b
  | .num n => n != 0
  | .str s => s != ""

/-- String.prototype.startsWith of JavaScript, modelled on the character
list underlying the Lean string. -/
def strStartsWith (s pat : String) : Bool :=
  pat.data.isPrefixOf s.data

/-- One entry of the `profiles` mapping as produced by yaml.parse, before
validation (source: interface SentryProfile in src/utils/config-loader.ts).
The two mandatory fields are kept as raw JavaScript values because the
validator tests their truthiness; `baseUrl` keys in the documents at hand are
either absent or strings. -/
structure RawProfile where
  authToken : JSValue
  organization : JSValue
  baseUrl : Option String
deriving DecidableEq

/-- The YAML frontmatter after parsing (a Partial Config in the source):
`profiles` is `some entries` when the document carries a profiles object
(entries in declaration order, as Object.keys preserves it), and `none` when
the key is absent or not an object. -/
structure ParsedFrontmatter where
  profiles : Option (List (String × RawProfile))
  defaultProfile : JSValue
  defaultFormat : JSValue
deriving DecidableEq

/-- The Config value returned by loadConfig (source: interface Config in
src/utils/config-loader.ts). The defaulted fields are kept as raw JavaScript
values because `defaultProfile` is `undefined` when the profiles mapping is
empty. -/
structure LoadedConfig where
  profiles : List (String × RawProfile)
  defaultProfile : JSValue
  defaultFormat : JSValue
deriving DecidableEq

/-- Sentry client options (source: interface SentryClientOptions in
src/utils/config-loader.ts). -/
structure SentryClientOptions where
  authToken : JSValue
  organization : JSValue
  baseUrl : String
deriving DecidableEq

/-- Validation of one profile entry (source: the per-profile loop of
loadConfig, src/utils/config-loader.ts lines 66-78): the required fields
authToken and organization must be truthy, and a truthy baseUrl must start
with http:// or https://. -/
def validateProfile (profileName : String) (p : RawProfile) : Except String Unit :=
  if !jsTruthy p.authToken then
    .error ("Profile \"" ++ profileName ++ "\" missing required field: authToken")
  else if !jsTruthy p.organization then
    .error ("Profile \"" ++ profileName ++ "\" missing required field: organization")
  else
    match p.baseUrl with
    | some u =>
      if u != "" && !strStartsWith u "http://" && !strStartsWith u "https://" then
        .error ("Profile \"" ++ profileName ++ "\" baseUrl must start with http:// or https://")
      else
        .ok ()
    | none => .ok ()

/-- Validation of the whole profiles mapping in declaration order; the first
failing profile aborts the load (source: the for-of loop in loadConfig). -/
def validateProfiles : List (String × RawProfile) → Except String Unit
  | [] => .ok ()
  | (n, p) :: rest =>
    match validateProfile n p with
    | .error e => .error e
    | .ok _ => validateProfiles rest

/-- The part of loadConfig that runs on the parsed frontmatter (source:
src/utils/config-loader.ts lines 61-84): reject a missing profiles object,
validate every profile, then apply the defaults
`defaultProfile || Object.keys(profiles)[0]` and `defaultFormat || 'json'`. -/
def loadConfigFromDoc (doc : ParsedFrontmatter) : Except String LoadedConfig :=
  match doc.profiles with
  | none => .error "Configuration must include \"profiles\" object"
  | some entries =>
    match validateProfiles entries with
    | .error e => .error e
    | .ok _ =>
      .ok { profiles := entries
            defaultProfile :=
              if jsTruthy doc.defaultProfile then doc.defaultProfile
              else
                match entries.head? with
                | some e => .str e.1
                | none => .undefined
            defaultFormat :=
              if jsTruthy doc.defaultFormat then doc.defaultFormat
              else .str "json" }

/-- Scan for the first occurrence of the closing delimiter newline-dash-dash-dash
and return the characters before it (the lazy group of the frontmatter
regular expression). -/
def fmAux : List Char → Option (List Char)
  | '\n' :: '-' :: '-' :: '-' :: _ => some []
  | c :: rest => (fmAux rest).map (fun cs => c :: cs)
  | [] => none

/-- Frontmatter extraction (source: the regular expression match in
loadConfig): the content must begin with a dash-dash-dash line and the
frontmatter runs up to the first closing dash-dash-dash line. -/
def extractFrontmatter (content : String) : Option String :=
  match content.data with
  | '-' :: '-' :: '-' :: '\n' :: rest => (fmAux rest).map (fun cs => String.mk cs)
  | _ => none

/-- The conventional configuration path (source:
path.join(projectRoot, ".claude", "sentry-config.local.md")). -/
def configFilePath (projectRoot : String) : String :=
  projectRoot ++ "/.claude/sentry-config.local.md"

/-- loadConfig (source: src/utils/config-loader.ts lines 38-85). The file
system is passed explicitly as a map from path to optional contents, and
yaml.parse is passed as `parseYaml` (an external library call; a parse
failure propagates, as in the source). Everything else follows the source:
read the single conventional path, fail with a message naming that path when
the file is absent, extract the frontmatter, parse it, validate and default. -/
def loadConfig (fs : String → Option String)
    (parseYaml : String → Except String ParsedFrontmatter)
    (projectRoot : String) : Except String LoadedConfig :=
  match fs (configFilePath projectRoot) with
  | none =>
    .error ("Configuration file not found at " ++ configFilePath projectRoot ++
      "\nPlease create .claude/sentry-config.local.md with your Sentry profiles.")
  | some content =>
    match extractFrontmatter content with
    | none =>
      .error "Invalid configuration file format. Expected YAML frontmatter (---...---) at the beginning."
    | some frontmatter =>
      match parseYaml frontmatter with
      | .error e => .error e
      | .ok doc => loadConfigFromDoc doc

/-- Array.prototype.join with a comma separator, as used for the list of
available profile names in the error message of getSentryClientOptions. -/
def joinComma : List String → String
  | [] => ""
  | [a] => a
  | a :: b :: rest => a ++ ", " ++ joinComma (b :: rest)

/-- getSentryClientOptions (source: src/utils/config-loader.ts lines 94-107):
look the profile up by name; when absent, fail with a message listing every
configured profile name; otherwise return the credentials with
`baseUrl || 'https://sentry.io/api/0'`. -/
def getSentryClientOptions (config : LoadedConfig) (profileName : String) :
    Except String SentryClientOptions :=
  match config.profiles.lookup profileName with
  | none =>
    .error ("Profile \"" ++ profileName ++ "\" not found. Available profiles: " ++
      joinComma (config.profiles.map Prod.fst))
  | some p =>
    .ok { authToken := p.authToken
          organization := p.organization
          baseUrl :=
            match p.baseUrl with
            | some u => if u != "" then u else "https://sentry.io/api/0"
            | none => "https://sentry.io/api/0" }

/-- The JSON argument object of a command invocation, as an arbitrary
string-keyed JavaScript object: absent keys read as undefined. -/
def Args := String → JSValue

/-- Write one key of an argument object (used to state that a falsy value
behaves exactly like an absent key). -/
def setArg (args : Args) (key : String) (v : JSValue) : Args :=
  fun q => if q = key then v else args q

/-- The thirteen-command catalog (source: the COMMANDS constant of
src/config/constants.ts, mirrored by the case labels of the runCommand switch
in src/cli/wrapper.ts and by the tests). -/
def COMMANDS : List String :=
  ["list-project-events", "list-project-issues", "list-org-issues",
   "get-issue", "update-issue", "list-issue-events", "get-event",
   "get-issue-event", "get-tag-details", "list-tag-values",
   "list-issue-hashes", "debug-source-maps", "test-connection"]

/-- The required parameter names each branch of the runCommand switch tests
before performing the remote call (source: src/cli/wrapper.ts lines 169-275). -/
def requiredParams : String → List String
  | "list-project-events" => ["projectSlug"]
  | "list-project-issues" => ["projectSlug"]
  | "get-issue" => ["issueId"]
  | "update-issue" => ["issueId"]
  | "list-issue-events" => ["issueId"]
  | "get-event" => ["projectSlug", "eventId"]
  | "get-issue-event" => ["issueId", "eventId"]
  | "get-tag-details" => ["issueId", "tagKey"]
  | "list-tag-values" => ["issueId", "tagKey"]
  | "list-issue-hashes" => ["issueId"]
  | "debug-source-maps" => ["projectSlug", "eventId"]
  | _ => []

/-- The exact missing-parameter message each branch of the runCommand switch
emits (source: src/cli/wrapper.ts lines 169-275, identical strings in the
headless runner tests). -/
def requiredMsg : String → String
  | "list-project-events" => "ERROR: \"projectSlug\" parameter is required"
  | "list-project-issues" => "ERROR: \"projectSlug\" parameter is required"
  | "get-issue" => "ERROR: \"issueId\" parameter is required"
  | "update-issue" => "ERROR: \"issueId\" parameter is required"
  | "list-issue-events" => "ERROR: \"issueId\" parameter is required"
  | "get-event" => "ERROR: \"projectSlug\" and \"eventId\" parameters are required"
  | "get-issue-event" => "ERROR: \"issueId\" and \"eventId\" parameters are required"
  | "get-tag-details" => "ERROR: \"issueId\" and \"tagKey\" parameters are required"
  | "list-tag-values" => "ERROR: \"issueId\" and \"tagKey\" parameters are required"
  | "list-issue-hashes" => "ERROR: \"issueId\" parameter is required"
  | "debug-source-maps" => "ERROR: \"projectSlug\" and \"eventId\" parameters are required"
  | _ => ""

/-- What one pass through the runCommand switch does before any remote
traffic: report a missing required parameter and return, report an unknown
command and return, or reach the remote call of the named API wrapper
function. -/
inductive DispatchOutcome where
  | paramError (msg : String)
  | unknown (msg : String)
  | call (fn : String)
deriving DecidableEq

/-- The runCommand dispatch switch (source: src/cli/wrapper.ts lines 169-281),
branch by branch: each case tests the truthiness of its required parameters,
emits the exact error string of the source on a missing one, and otherwise
proceeds to the remote call of the corresponding API wrapper function
(the arguments forwarded to that function are abstracted away here). The
default case emits the unknown-command message of the source. -/
def wrapperDispatch (command : String) (args : Args) : DispatchOutcome :=
  if command = "list-project-events" then
    if !jsTruthy (args "projectSlug") then
      .paramError "ERROR: \"projectSlug\" parameter is required"
    else .call "listProjectEvents"
  else if command = "list-project-issues" then
    if !jsTruthy (args "projectSlug") then
      .paramError "ERROR: \"projectSlug\" parameter is required"
    else .call "listProjectIssues"
  else if command = "list-org-issues" then
    .call "listOrgIssues"
  else if command = "get-issue" then
    if !jsTruthy (args "issueId") then
      .paramError "ERROR: \"issueId\" parameter is required"
    else .call "getIssue"
  else if command = "update-issue" then
    if !jsTruthy (args "issueId") then
      .paramError "ERROR: \"issueId\" parameter is required"
    else .call "updateIssue"
  else if command = "list-issue-events" then
    if !jsTruthy (args "issueId") then
      .paramError "ERROR: \"issueId\" parameter is required"
    else .call "listIssueEvents"
  else if command = "get-event" then
    if !jsTruthy (args "projectSlug") || !jsTruthy (args "eventId") then
      .paramError "ERROR: \"projectSlug\" and \"eventId\" parameters are required"
    else .call "getEvent"
  else if command = "get-issue-event" then
    if !jsTruthy (args "issueId") || !jsTruthy (args "eventId") then
      .paramError "ERROR: \"issueId\" and \"eventId\" parameters are required"
    else .call "getIssueEvent"
  else if command = "get-tag-details" then
    if !jsTruthy (args "issueId") || !jsTruthy (args "tagKey") then
      .paramError "ERROR: \"issueId\" and \"tagKey\" parameters are required"
    else .call "getTagDetails"
  else if command = "list-tag-values" then
    if !jsTruthy (args "issueId") || !jsTruthy (args "tagKey") then
      .paramError "ERROR: \"issueId\" and \"tagKey\" parameters are required"
    else .call "listTagValues"
  else if command = "list-issue-hashes" then
    if !jsTruthy (args "issueId") then
      .paramError "ERROR: \"issueId\" parameter is required"
    else .call "listIssueHashes"
  else if command = "debug-source-maps" then
    if !jsTruthy (args "projectSlug") || !jsTruthy (args "eventId") then
      .paramError "ERROR: \"projectSlug\" and \"eventId\" parameters are required"
    else .call "debugSourceMaps"
  else if command = "test-connection" then
    .call "testConnection"
  else
    .unknown ("Unknown command: " ++ command ++
      ". Type \"commands\" to see available commands.")

/-- The uniform success/failure value every dispatched operation yields:
success true with a formatted result, or success false with an error
string (ApiResult of the specification and the sentry-client tests). -/
inductive ApiResult where
  | ok (result : String)
  | err (error : String)
deriving DecidableEq

/-- Modelled from the spec: the operation dispatcher invoke of §4.3 together
with the uniform catch-all wrapped around every remote call in
src/utils/sentry-utils.ts and src/utils/sentry-client.ts, which are not among
the sources at hand (only their tests and callers are). Validation and
routing are the runCommand switch embedded above from src/cli/wrapper.ts; the
remote transport is passed explicitly and either returns a payload or raises
an exception carrying a message; an exception is caught and folded into a
success-false ApiResult, a payload is rendered by the result formatter into a
success-true ApiResult. -/
def invoke (command : String) (args : Args)
    (transport : String → Except String String)
    (render : String → String) : ApiResult :=
  match wrapperDispatch command args with
  | .paramError msg => .err msg
  | .unknown msg => .err msg
  | .call fn =>
    match transport fn with
    | .error e => .err e
    | .ok payload => .ok (render payload)

/-- Modelled from the spec: the process-wide client registry state of
src/utils/sentry-utils.ts, which is not among the sources at hand (only its
tests and callers are). The pool maps profile names to client handles;
handles are given identity by a counter that increases at every
construction, which models JavaScript object identity of freshly
constructed clients. -/
structure Registry where
  nextId : Nat
  pool : List (String × Nat)
deriving DecidableEq

/-- Every pooled handle was created by the counter, so it is below the next
fresh value. The empty registry of process start satisfies this and both
operations preserve it. -/
def RegistryWF (r : Registry) : Prop :=
  ∀ e ∈ r.pool, e.2 < r.nextId

/-- Modelled from the spec: getClient of §4.2 — return the pooled handle for
the profile when one exists, otherwise construct a fresh handle, store it
under the profile name and return it. -/
def getClient (r : Registry) (profileName : String) : Nat × Registry :=
  match r.pool.lookup profileName with
  | some h => (h, r)
  | none => (r.nextId, { nextId := r.nextId + 1, pool := (profileName, r.nextId) :: r.pool })

/-- Modelled from the spec: clearClients / clearAll of §4.2 — unconditionally
empty the registry. -/
def clearClients (r : Registry) : Registry :=
  { r with pool := [] }

/-- The production profile of the config-loader test fixture. -/
def prodProfile : RawProfile :=
  { authToken := .str "PROD_TOKEN", organization := .str "prod-org", baseUrl := none }

/-- The staging profile of the config-loader test fixture, carrying an
explicit baseUrl. -/
def stagingProfile : RawProfile :=
  { authToken := .str "STAGING_TOKEN", organization := .str "staging-org",
    baseUrl := some "https://staging.sentry.io/api/0" }

/-- A loaded configuration mirroring the config-loader test fixture with the
profiles production and staging. -/
def sampleConfig : LoadedConfig :=
  { profiles := [("production", prodProfile), ("staging", stagingProfile)],
    defaultProfile := .str "production", defaultFormat := .str "json" }

/-- A parsed document declaring two profiles and neither defaultProfile nor
defaultFormat, mirroring the first-profile-default test. -/
def twoProfileDoc : ParsedFrontmatter :=
  { profiles := some
      [("first", { authToken := .str "FIRST_TOKEN",
                   organization := .str "first-org", baseUrl := none }),
       ("second", { authToken := .str "SECOND_TOKEN",
                    organization := .str "second-org", baseUrl := none })],
    defaultProfile := .undefined, defaultFormat := .undefined }

/-! Helper lemmas shared by the claim theorems. -/

theorem strAppend_assoc (a b c : String) : a ++ b ++ c = a ++ (b ++ c) := by
  apply String.ext
  simp [List.append_assoc]

theorem lookup_mem {l : List (String × Nat)} {a : String} {b : Nat}
    (h : l.lookup a = some b) : (a, b) ∈ l := by
  induction l with
  | nil => simp [List.lookup] at h
  | cons e rest ih =>
    obtain ⟨k, v⟩ := e
    rw [List.lookup] at h
    split at h
    · next heq =>
      cases h
      simp only [beq_iff_eq] at heq
      subst heq
      exact List.mem_cons_self _ _
    · exact List.mem_cons_of_mem _ (ih h)

theorem joinComma_mem_infix {l : List String} {n : String} (hn : n ∈ l) :
    ∃ pre post, joinComma l = pre ++ (n ++ post) := by
  induction l with
  | nil => cases hn
  | cons a rest ih =>
    cases rest with
    | nil =>
      rcases List.mem_singleton.mp hn with rfl
      exact ⟨"", "", by simp [joinComma]⟩
    | cons b rest2 =>
      rcases List.mem_cons.mp hn with rfl | hmem
      · exact ⟨"", ", " ++ joinComma (b :: rest2), by
          simp only [joinComma]
          rw [String.empty_append, strAppend_assoc]⟩
      · obtain ⟨pre, post, hp⟩ := ih hmem
        refine ⟨a ++ ", " ++ pre, post, ?_⟩
        simp only [joinComma]
        rw [hp]
        simp only [strAppend_assoc]

theorem wrapperDispatch_missing (c : String) (args : Args) (p : String)
    (hc : c ∈ COMMANDS) (hp : p ∈ requiredParams c)
    (hmiss : jsTruthy (args p) = false) :
    wrapperDispatch c args = .paramError (requiredMsg c) := by
  simp only [COMMANDS, List.mem_cons, List.not_mem_nil, or_false] at hc
  rcases hc with rfl | rfl | rfl | rfl | rfl | rfl | rfl | rfl | rfl | rfl | rfl | rfl | rfl <;>
    simp only [requiredParams, List.mem_cons, List.not_mem_nil, or_false] at hp <;>
    rcases hp with rfl | rfl <;>
    simp [wrapperDispatch, requiredMsg, hmiss]

/-! Claim theorems. -/

/-- C1: two sequential getClient calls for the same profile name with no
intervening clearAll return the identical client handle and leave the
registry unchanged (at most one live client per profile name); after
clearAll, the next getClient for that profile returns a new, distinct
handle; and clearAll is safe on an empty registry and when called
repeatedly. -/
theorem client_pooling_and_clearAll (r : Registry) (p : String) (h : RegistryWF r) :
    (getClient (getClient r p).2 p).1 = (getClient r p).1 ∧
    (getClient (getClient r p).2 p).2 = (getClient r p).2 ∧
    (getClient (clearClients (getClient r p).2) p).1 ≠ (getClient r p).1 ∧
    clearClients (clearClients r) = clearClients r ∧
    clearClients { nextId := r.nextId, pool := [] } = { nextId := r.nextId, pool := [] } := by
  have hmain : (getClient (getClient r p).2 p).1 = (getClient r p).1 ∧
      (getClient (getClient r p).2 p).2 = (getClient r p).2 ∧
      (getClient (clearClients (getClient r p).2) p).1 ≠ (getClient r p).1 := ?_
  · exact ⟨hmain.1, hmain.2.1, hmain.2.2, rfl, rfl⟩
  cases hl : r.pool.lookup p with
  | some hdl =>
    have hfst : getClient r p = (hdl, r) := by simp [getClient, hl]
    have hlt : hdl < r.nextId := h _ (lookup_mem hl)
    refine ⟨?_, ?_, ?_⟩ <;> rw [hfst]
    · rw [hfst]
    · rw [hfst]
    · have hfc : (getClient (clearClients r) p).1 = r.nextId := by
        simp [getClient, clearClients, List.lookup]
      rw [hfc]
      exact fun hcontr => absurd (hcontr ▸ hlt) (lt_irrefl _)
  | none =>
    have hfst : getClient r p =
        (r.nextId, { nextId := r.nextId + 1, pool := (p, r.nextId) :: r.pool }) := by
      simp [getClient, hl]
    refine ⟨?_, ?_, ?_⟩ <;> rw [hfst]
    · simp [getClient, List.lookup]
    · simp [getClient, List.lookup]
    · have hfc : (getClient (clearClients
          { nextId := r.nextId + 1, pool := (p, r.nextId) :: r.pool }) p).1 =
          r.nextId + 1 := by
        simp [getClient, clearClients, List.lookup]
      rw [hfc]
      exact Nat.succ_ne_self r.nextId

/-- Witness for C1 at the empty registry of process start. -/
theorem client_pooling_and_clearAll_witness :
    (getClient (getClient { nextId := 0, pool := [] } "p").2 "p").1 =
      (getClient { nextId := 0, pool := [] } "p").1 ∧
    (getClient (clearClients (getClient { nextId := 0, pool := [] } "p").2) "p").1 ≠
      (getClient { nextId := 0, pool := [] } "p").1 := by
  have h := client_pooling_and_clearAll { nextId := 0, pool := [] } "p"
    (by intro e he; cases he)
  exact ⟨h.1, h.2.2.1⟩

/-- C2: for every command of the catalog and every argument object in which
some parameter the switch marks required is missing (reads as a non-truthy
value), the dispatch reports exactly the required-parameter error string of
the source, naming both parameters joined with and when two are required,
and performs no remote call. -/
theorem missing_required_parameter_reported (c : String) (args : Args) (p : String)
    (hc : c ∈ COMMANDS) (hp : p ∈ requiredParams c)
    (hmiss : jsTruthy (args p) = false) :
    wrapperDispatch c args = .paramError (requiredMsg c) ∧
    ∀ fn, wrapperDispatch c args ≠ .call fn := by
  have h := wrapperDispatch_missing c args p hc hp hmiss
  refine ⟨h, fun fn hcall => ?_⟩
  rw [h] at hcall
  cases hcall

/-- Witness for C2: get-issue invoked with an empty argument object. -/
theorem missing_required_parameter_reported_witness :
    wrapperDispatch "get-issue" (fun _ => JSValue.undefined) =
      DispatchOutcome.paramError "ERROR: \"issueId\" parameter is required" ∧
    ∀ fn, wrapperDispatch "get-issue" (fun _ => JSValue.undefined) ≠
      DispatchOutcome.call fn := by
  have h := missing_required_parameter_reported "get-issue" (fun _ => JSValue.undefined)
    "issueId" (by decide) (by decide) rfl
  exact ⟨h.1, h.2⟩

/-- C3: the dispatched outcome is always one of the two ApiResult shapes, and
whenever the routed remote call raises a transport exception, invoke folds it
into a success-false ApiResult carrying the exception message instead of
propagating it. -/
theorem transport_exception_never_escapes (c : String) (args : Args) (fn : String)
    (transport : String → Except String String) (render : String → String)
    (e : String)
    (hcall : wrapperDispatch c args = .call fn)
    (hthrow : transport fn = .error e) :
    invoke c args transport render = .err e ∧
    ∀ (c' : String) (args' : Args) (t : String → Except String String)
      (rd : String → String),
      (∃ s, invoke c' args' t rd = .ok s) ∨ (∃ s, invoke c' args' t rd = .err s) := by
  constructor
  · simp [invoke, hcall, hthrow]
  · intro c' args' t rd
    cases hv : invoke c' args' t rd with
    | ok s => exact .inl ⟨s, rfl⟩
    | err s => exact .inr ⟨s, rfl⟩

/-- Witness for C3: test-connection with a transport that raises a network
error. -/
theorem transport_exception_never_escapes_witness :
    invoke "test-connection" (fun _ => JSValue.undefined)
      (fun _ => Except.error "Network Error") (fun s => s) =
      ApiResult.err "Network Error" := by
  exact (transport_exception_never_escapes "test-connection" (fun _ => JSValue.undefined)
    "testConnection" (fun _ => Except.error "Network Error") (fun s => s)
    "Network Error" rfl rfl).1

/-- C4 counterexample: dispatching the unrecognized name unknown-cmd yields
the unknown-command failure of the source, whose error string is not exactly
the string Unknown command: unknown-cmd — the source appends a hint
sentence. -/
theorem unknown_command_message_not_exact :
    wrapperDispatch "unknown-cmd" (fun _ => JSValue.undefined) =
      DispatchOutcome.unknown
        "Unknown command: unknown-cmd. Type \"commands\" to see available commands." ∧
    wrapperDispatch "unknown-cmd" (fun _ => JSValue.undefined) ≠
      DispatchOutcome.unknown "Unknown command: unknown-cmd" := by
  constructor
  · rfl
  · decide

/-- C4 amended: for every command name outside the thirteen-command catalog,
the dispatch returns the unknown-command failure whose error string begins
with Unknown command: followed by the submitted name (the REPL dispatcher
appends the hint sentence), and no remote call is made. -/
theorem unknown_command_reported (c : String) (args : Args) (hc : c ∉ COMMANDS) :
    wrapperDispatch c args =
      .unknown ("Unknown command: " ++ c ++
        ". Type \"commands\" to see available commands.") ∧
    (∃ post, "Unknown command: " ++ c ++
        ". Type \"commands\" to see available commands." =
      ("Unknown command: " ++ c) ++ post) ∧
    ∀ fn, wrapperDispatch c args ≠ .call fn := by
  simp only [COMMANDS, List.mem_cons, List.not_mem_nil, or_false, not_or] at hc
  obtain ⟨h1, h2, h3, h4, h5, h6, h7, h8, h9, h10, h11, h12, h13⟩ := hc
  have hd : wrapperDispatch c args =
      .unknown ("Unknown command: " ++ c ++
        ". Type \"commands\" to see available commands.") := by
    simp [wrapperDispatch, h1, h2, h3, h4, h5, h6, h7, h8, h9, h10, h11, h12, h13]
  refine ⟨hd, ⟨". Type \"commands\" to see available commands.", rfl⟩, fun fn hcall => ?_⟩
  rw [hd] at hcall
  cases hcall

/-- Witness for the amended C4 at the name unknown-cmd. -/
theorem unknown_command_reported_witness :
    wrapperDispatch "unknown-cmd" (fun _ => JSValue.undefined) =
      DispatchOutcome.unknown
        "Unknown command: unknown-cmd. Type \"commands\" to see available commands." ∧
    ∀ fn, wrapperDispatch "unknown-cmd" (fun _ => JSValue.undefined) ≠
      DispatchOutcome.call fn := by
  have h := unknown_command_reported "unknown-cmd" (fun _ => JSValue.undefined) (by decide)
  exact ⟨h.1, h.2.2⟩

/-- C5: when the configuration file does not exist at the conventional path
root/.claude/sentry-config.local.md, loadConfig fails with an error whose
message includes the attempted path, and loadConfig reads from exactly that
one canonical path: its result depends on the file system only through the
contents at that path. -/
theorem loadConfig_file_not_found (fs : String → Option String)
    (parseYaml : String → Except String ParsedFrontmatter) (root : String)
    (h : fs (configFilePath root) = none) :
    loadConfig fs parseYaml root =
      .error ("Configuration file not found at " ++ configFilePath root ++
        "\nPlease create .claude/sentry-config.local.md with your Sentry profiles.") ∧
    (∃ pre post,
      ("Configuration file not found at " ++ configFilePath root ++
        "\nPlease create .claude/sentry-config.local.md with your Sentry profiles.") =
        pre ++ (configFilePath root ++ post)) ∧
    ∀ f₁ f₂ : String → Option String,
      f₁ (configFilePath root) = f₂ (configFilePath root) →
      loadConfig f₁ parseYaml root = loadConfig f₂ parseYaml root := by
  refine ⟨?_, ⟨"Configuration file not found at ",
    "\nPlease create .claude/sentry-config.local.md with your Sentry profiles.",
    strAppend_assoc _ _ _⟩, ?_⟩
  · simp [loadConfig, h]
  · intro f₁ f₂ hagree
    unfold loadConfig
    rw [hagree]

/-- Witness for C5 on an empty file system. -/
theorem loadConfig_file_not_found_witness :
    loadConfig (fun _ => none)
      (fun _ => Except.ok { profiles := none, defaultProfile := JSValue.undefined,
                            defaultFormat := JSValue.undefined }) "/work" =
      .error ("Configuration file not found at /work/.claude/sentry-config.local.md" ++
        "\nPlease create .claude/sentry-config.local.md with your Sentry profiles.") := by
  exact (loadConfig_file_not_found (fun _ => none)
    (fun _ => Except.ok { profiles := none, defaultProfile := JSValue.undefined,
                          defaultFormat := JSValue.undefined }) "/work" rfl).1

/-- C6: resolving an absent profile name fails with a message naming the
profile, containing the words Available profiles: followed by every
configured profile name, and never returns options. -/
theorem unknown_profile_error (cfg : LoadedConfig) (p : String)
    (h : cfg.profiles.lookup p = none) :
    getSentryClientOptions cfg p =
      .error ("Profile \"" ++ p ++ "\" not found. Available profiles: " ++
        joinComma (cfg.profiles.map Prod.fst)) ∧
    (∀ v, getSentryClientOptions cfg p ≠ .ok v) ∧
    ∀ n ∈ cfg.profiles.map Prod.fst,
      ∃ pre post,
        ("Profile \"" ++ p ++ "\" not found. Available profiles: " ++
          joinComma (cfg.profiles.map Prod.fst)) = pre ++ (n ++ post) := by
  have hd : getSentryClientOptions cfg p =
      .error ("Profile \"" ++ p ++ "\" not found. Available profiles: " ++
        joinComma (cfg.profiles.map Prod.fst)) := by
    simp [getSentryClientOptions, h]
  refine ⟨hd, fun v hv => ?_, fun n hn => ?_⟩
  · rw [hd] at hv
    cases hv
  · obtain ⟨pre, post, hjp⟩ := joinComma_mem_infix hn
    refine ⟨"Profile \"" ++ p ++ "\" not found. Available profiles: " ++ pre, post, ?_⟩
    rw [hjp]
    simp only [strAppend_assoc]

/-- Witness for C6 on a configuration with profiles production and staging. -/
theorem unknown_profile_error_witness :
    getSentryClientOptions sampleConfig "nonexistent" =
      .error "Profile \"nonexistent\" not found. Available profiles: production, staging" := by
  exact (unknown_profile_error sampleConfig "nonexistent" (by decide)).1

/-- C7: for a profile present in a valid configuration, the resolved options
carry that profile's authToken and organization unchanged, and its explicit
baseUrl when one is declared, else the fixed default
https://sentry.io/api/0. -/
theorem resolve_profile_options (cfg : LoadedConfig) (p : String) (prof : RawProfile)
    (h : cfg.profiles.lookup p = some prof)
    (hb : prof.baseUrl = none ∨ ∃ u, prof.baseUrl = some u ∧
      (strStartsWith u "http://" = true ∨ strStartsWith u "https://" = true)) :
    getSentryClientOptions cfg p =
      .ok { authToken := prof.authToken, organization := prof.organization,
            baseUrl := prof.baseUrl.getD "https://sentry.io/api/0" } := by
  rcases hb with hb | ⟨u, hu, hpre⟩
  · simp [getSentryClientOptions, h, hb]
  · have hne : u ≠ "" := by
      rintro rfl
      rcases hpre with hcontr | hcontr <;> exact absurd hcontr (by decide)
    simp [getSentryClientOptions, h, hu, hne]

/-- Witness for C7: one profile with an explicit baseUrl, one without. -/
theorem resolve_profile_options_witness :
    getSentryClientOptions sampleConfig "production" =
      .ok { authToken := JSValue.str "PROD_TOKEN",
            organization := JSValue.str "prod-org",
            baseUrl := "https://sentry.io/api/0" } ∧
    getSentryClientOptions sampleConfig "staging" =
      .ok { authToken := JSValue.str "STAGING_TOKEN",
            organization := JSValue.str "staging-org",
            baseUrl := "https://staging.sentry.io/api/0" } := by
  constructor
  · exact resolve_profile_options sampleConfig "production" prodProfile (by decide)
      (Or.inl rfl)
  · exact resolve_profile_options sampleConfig "staging" stagingProfile (by decide)
      (Or.inr ⟨"https://staging.sentry.io/api/0", rfl, Or.inr (by decide)⟩)

/-- C8: a successfully loaded configuration is fully defaulted — the profiles
mapping is passed through unchanged, defaultProfile is the declared value
when the document sets one and otherwise the first declared profile name in
document order, and defaultFormat is the declared value when set and
otherwise json. -/
theorem loaded_config_fully_defaulted (doc : ParsedFrontmatter)
    (entries : List (String × RawProfile)) (c : LoadedConfig)
    (hp : doc.profiles = some entries)
    (h : loadConfigFromDoc doc = .ok c) :
    c.profiles = entries ∧
    c.defaultProfile = (if jsTruthy doc.defaultProfile then doc.defaultProfile
      else match entries.head? with
           | some e => .str e.1
           | none => .undefined) ∧
    c.defaultFormat = (if jsTruthy doc.defaultFormat then doc.defaultFormat
      else .str "json") := by
  simp only [loadConfigFromDoc, hp] at h
  cases hv : validateProfiles entries with
  | error e =>
    rw [hv] at h
    cases h
  | ok u =>
    rw [hv] at h
    cases h
    exact ⟨rfl, rfl, rfl⟩

/-- Witness for C8: a document declaring two profiles and neither
defaultProfile nor defaultFormat loads with defaultProfile first and
defaultFormat json. -/
theorem loaded_config_fully_defaulted_witness :
    (loadConfigFromDoc twoProfileDoc).toOption.map LoadedConfig.defaultProfile =
      some (JSValue.str "first") ∧
    (loadConfigFromDoc twoProfileDoc).toOption.map LoadedConfig.defaultFormat =
      some (JSValue.str "json") := by
  have hfields := loaded_config_fully_defaulted twoProfileDoc
    [("first", { authToken := .str "FIRST_TOKEN",
                 organization := .str "first-org", baseUrl := none }),
     ("second", { authToken := .str "SECOND_TOKEN",
                  organization := .str "second-org", baseUrl := none })]
    { profiles := [("first", { authToken := .str "FIRST_TOKEN",
                               organization := .str "first-org", baseUrl := none }),
                   ("second", { authToken := .str "SECOND_TOKEN",
                                organization := .str "second-org", baseUrl := none })],
      defaultProfile := .str "first", defaultFormat := .str "json" }
    rfl rfl
  exact ⟨rfl, rfl⟩

/-- C9: a document with an empty profiles mapping loads without an error:
the loaded configuration has an empty profiles mapping, an undefined
defaultProfile (no profile name) and the defaulted json format, so a
successfully loaded configuration need not name an existing profile in
defaultProfile. -/
theorem empty_profiles_accepted :
    loadConfig (fun _ => some "---\nprofiles: \x7b\x7d\n---\n")
      (fun _ => Except.ok { profiles := some [], defaultProfile := JSValue.undefined,
                            defaultFormat := JSValue.undefined })
      "/work" =
      .ok { profiles := [], defaultProfile := JSValue.undefined,
            defaultFormat := JSValue.str "json" } := by
  rfl

/-- C10: presence of a required parameter is decided by truthiness — a falsy
value behaves exactly like an absent key: the dispatch reports the same
required-parameter error and performs no remote call; likewise loadConfig
rejects a profile whose authToken or organization holds a falsy value with
the missing-required-field error naming that field. -/
theorem falsy_treated_as_absent (c : String) (args : Args) (p : String) (v : JSValue)
    (hc : c ∈ COMMANDS) (hp : p ∈ requiredParams c) (hv : jsTruthy v = false)
    (n : String) (prof : RawProfile) (rest : List (String × RawProfile))
    (dp df : JSValue)
    (hprof : jsTruthy prof.authToken = false ∨
      (jsTruthy prof.authToken = true ∧ jsTruthy prof.organization = false)) :
    wrapperDispatch c (setArg args p v) = .paramError (requiredMsg c) ∧
    wrapperDispatch c (setArg args p .undefined) = .paramError (requiredMsg c) ∧
    (∀ fn, wrapperDispatch c (setArg args p v) ≠ .call fn) ∧
    loadConfigFromDoc { profiles := some ((n, prof) :: rest),
                        defaultProfile := dp, defaultFormat := df } =
      .error (if jsTruthy prof.authToken then
          "Profile \"" ++ n ++ "\" missing required field: organization"
        else
          "Profile \"" ++ n ++ "\" missing required field: authToken") := by
  have h1 := wrapperDispatch_missing c (setArg args p v) p hc hp (by simp [setArg, hv])
  have h2 := wrapperDispatch_missing c (setArg args p .undefined) p hc hp
    (by simp [setArg, jsTruthy])
  refine ⟨h1, h2, fun fn hcall => ?_, ?_⟩
  · rw [h1] at hcall
    cases hcall
  · rcases hprof with ha | ⟨ha, ho⟩
    · simp [loadConfigFromDoc, validateProfiles, validateProfile, ha]
    · simp [loadConfigFromDoc, validateProfiles, validateProfile, ha, ho]

/-- Witness for C10: get-issue with an empty-string issueId, and a profile
whose authToken is the empty string. -/
theorem falsy_treated_as_absent_witness :
    wrapperDispatch "get-issue" (setArg (fun _ => JSValue.undefined) "issueId"
        (JSValue.str "")) =
      DispatchOutcome.paramError "ERROR: \"issueId\" parameter is required" ∧
    loadConfigFromDoc
      { profiles := some [("incomplete",
          { authToken := JSValue.str "", organization := JSValue.str "my-org",
            baseUrl := none })],
        defaultProfile := JSValue.undefined, defaultFormat := JSValue.undefined } =
      .error "Profile \"incomplete\" missing required field: authToken" := by
  have h := falsy_treated_as_absent "get-issue" (fun _ => JSValue.undefined) "issueId"
    (JSValue.str "") (by decide) (by decide) (by decide)
    "incomplete"
    { authToken := JSValue.str "", organization := JSValue.str "my-org",
      baseUrl := none }
    [] JSValue.undefined JSValue.undefined (Or.inl (by decide))
  exact ⟨h.1, h.2.2.2⟩

end SentryCli
